import Mathlib

/- Verification of the curriculum generation and adaptive recommendation core of
   the PathForge personalized learning path backend (backend/ai_engine.py).

   Python floats are modelled as rationals, Python dicts with optional keys as
   structures with Option fields (dict.get with a default becomes Option.getD),
   and the one randomized step (the per-topic hour draw) as an explicit stream
   of draws passed to the estimator. -/

-- String utilities modelling the Python string operations used by the engine
-- (all strings appearing in the engine are ASCII).

/-- Models Python str.lower for a single ASCII character. -/
def charLower (c : Char) : Char :=
  if 65 ≤ c.toNat ∧ c.toNat ≤ 90 then Char.ofNat (c.toNat + 32) else c

/-- Models Python str.lower. -/
def strLower (s : String) : String := ⟨s.data.map charLower⟩

/-- Models target_role.lower().replace(' ', '_') from analyze_skill_gaps and
build_curriculum. -/
def normalizeRole (role : String) : String :=
  ⟨(strLower role).data.map (fun c => if c = ' ' then '_' else c)⟩

/-- Checks that the first list is an initial segment of the second. -/
def leadsWith : List Char → List Char → Bool
  | [], _ => true
  | _ :: _, [] => false
  | a :: as, b :: bs => a == b && leadsWith as bs

/-- Checks that the second list occurs contiguously inside the first. -/
def hasSeg : List Char → List Char → Bool
  | [], needle => leadsWith needle []
  | c :: t, needle => leadsWith needle (c :: t) || hasSeg t needle

/-- Models the Python substring test: needle in hay. -/
def containsSub (hay needle : String) : Bool := hasSeg hay.data needle.data

theorem leadsWith_self (l : List Char) : leadsWith l l = true := by
  induction l with
  | nil => rfl
  | cons c t ih => simp [leadsWith, ih]

theorem containsSub_self (s : String) : containsSub s s = true := by
  unfold containsSub
  cases h : s.data with
  | nil => rfl
  | cons c t => simp [hasSeg, leadsWith_self]

-- Data model (section 3 of the component design): the nested dictionaries
-- produced by the curriculum generators, with the derived fields that the
-- pipeline adds later held as Option fields.

structure Resource where
  type : String
  title : String
  url : String
  duration : String
  platform : String
deriving DecidableEq

structure Topic where
  id : String
  title : String
  description : String
  prerequisites : List String
  subtopics : List String
  locked : Option Bool := none
  resources : Option (List Resource) := none
  estimated_hours : Option ℚ := none
deriving DecidableEq

structure PathModule where
  id : String
  title : String
  description : String
  order : Nat
  difficulty : String
  topics : List Topic
  estimated_hours : Option ℚ := none
  estimated_days : Option ℤ := none
deriving DecidableEq

structure Curriculum where
  title : String
  description : String
  target_role : String
  difficulty : String
  modules : List PathModule
  total_estimated_weeks : Option ℤ := none
  total_estimated_hours : Option ℚ := none
deriving DecidableEq

/-- Shorthand for the topic dictionaries written inline by the generators. -/
def mkTopic (i t d : String) (prereqs subs : List String) : Topic :=
  { id := i, title := t, description := d, prerequisites := prereqs, subtopics := subs }

-- AIPathGenerator.load_skill_hierarchy: the static skill taxonomy.

def skill_hierarchy : List (String × List String × List String × List String) :=
  [ ("frontend",
      (["HTML", "CSS", "JavaScript Basics", "Git"],
       ["React", "CSS Frameworks", "Responsive Design", "APIs"],
       ["State Management", "Performance Optimization", "Testing", "Build Tools"])),
    ("backend",
      (["Python Basics", "HTTP", "Databases", "Git"],
       ["Flask/Django", "REST APIs", "SQL Advanced", "Authentication"],
       ["Microservices", "Caching", "Message Queues", "DevOps"])),
    ("fullstack",
      (["HTML", "CSS", "JavaScript", "Python", "Git"],
       ["React", "Node.js/Flask", "Databases", "REST APIs"],
       ["System Design", "Cloud Deployment", "CI/CD", "Security"])),
    ("data_science",
      (["Python", "Statistics", "Pandas", "NumPy"],
       ["Machine Learning", "Data Visualization", "SQL", "Feature Engineering"],
       ["Deep Learning", "MLOps", "Big Data", "Model Deployment"])),
    ("mobile",
      (["Programming Basics", "UI/UX Principles", "Git"],
       ["React Native/Flutter", "State Management", "APIs", "Native Features"],
       ["Performance", "App Store Deployment", "Push Notifications", "Offline Support"])),
    ("devops",
      (["Linux", "Networking", "Git", "Scripting"],
       ["Docker", "CI/CD", "Cloud Platforms", "Monitoring"],
       ["Kubernetes", "Infrastructure as Code", "Security", "Cost Optimization"])) ]

/-- The required-skill list for a role key: the beginner, intermediate and
advanced tiers concatenated in order, or empty when the key is unknown
(the membership test in analyze_skill_gaps). -/
def requiredSkillsFor (role_key : String) : List String :=
  match skill_hierarchy.find? (fun e => e.1 == role_key) with
  | some e => e.2.1 ++ e.2.2.1 ++ e.2.2.2
  | none => []

structure SkillGapResult where
  missing_skills : List String
  existing_skills : List String
  total_required : Nat
  completion_percentage : ℚ
deriving DecidableEq

/-- AIPathGenerator.analyze_skill_gaps. -/
def analyze_skill_gaps (current_skills : List String) (target_role : String) : SkillGapResult :=
  let role_key := normalizeRole target_role
  let required_skills := requiredSkillsFor role_key
  let current_skills_lower := current_skills.map strLower
  let gaps := required_skills.filter (fun skill => !(current_skills_lower.contains (strLower skill)))
  { missing_skills := gaps
    existing_skills := current_skills
    total_required := required_skills.length
    completion_percentage :=
      if required_skills.isEmpty then 0
      else ((current_skills.length : ℚ) / (required_skills.length : ℚ)) * 100 }

/-- AIPathGenerator.determine_proficiency_level (skill_count = len(current_skills)
is inlined). -/
def determine_proficiency_level (current_skills : List String) (assessment_score : ℚ) : String :=
  if 80 ≤ assessment_score ∧ 10 ≤ current_skills.length then "advanced"
  else if 50 ≤ assessment_score ∧ 5 ≤ current_skills.length then "intermediate"
  else "beginner"

/-- Rank of a proficiency tier under the ordering beginner < intermediate < advanced. -/
def tierRank (tier : String) : Nat :=
  if tier = "advanced" then 2 else if tier = "intermediate" then 1 else 0

theorem tierRank_det (s : List String) (a : ℚ) :
    tierRank (determine_proficiency_level s a) =
      if 80 ≤ a ∧ 10 ≤ s.length then 2 else if 50 ≤ a ∧ 5 ≤ s.length then 1 else 0 := by
  unfold determine_proficiency_level
  split_ifs <;> decide

/-- C8: determine_proficiency_level is monotonic in the assessment score and the
skill count, and the tier thresholds are exact: advanced iff score at least 80
and at least 10 skills, intermediate iff that fails but score at least 50 and at
least 5 skills. -/
theorem determine_proficiency_monotone_and_thresholds :
    (∀ (s₁ s₂ : List String) (a₁ a₂ : ℚ), s₁.length ≤ s₂.length → a₁ ≤ a₂ →
      tierRank (determine_proficiency_level s₁ a₁) ≤ tierRank (determine_proficiency_level s₂ a₂)) ∧
    (∀ (s : List String) (a : ℚ),
      (determine_proficiency_level s a = "advanced" ↔ 80 ≤ a ∧ 10 ≤ s.length) ∧
      (determine_proficiency_level s a = "intermediate" ↔
        ¬(80 ≤ a ∧ 10 ≤ s.length) ∧ (50 ≤ a ∧ 5 ≤ s.length))) := by
  constructor
  · intro s₁ s₂ a₁ a₂ hs ha
    rw [tierRank_det, tierRank_det]
    by_cases hA1 : 80 ≤ a₁ ∧ 10 ≤ s₁.length
    · have hA2 : 80 ≤ a₂ ∧ 10 ≤ s₂.length := ⟨le_trans hA1.1 ha, le_trans hA1.2 hs⟩
      simp [hA1, hA2]
    · by_cases hB1 : 50 ≤ a₁ ∧ 5 ≤ s₁.length
      · have hB2 : 50 ≤ a₂ ∧ 5 ≤ s₂.length := ⟨le_trans hB1.1 ha, le_trans hB1.2 hs⟩
        simp only [if_neg hA1, if_pos hB1]
        split_ifs <;> omega
      · simp only [if_neg hA1, if_neg hB1]
        split_ifs <;> omega
  · intro s a
    unfold determine_proficiency_level
    constructor
    · split_ifs with hA hB
      · exact iff_of_true rfl hA
      · exact iff_of_false (by decide) hA
      · exact iff_of_false (by decide) hA
    · split_ifs with hA hB
      · exact iff_of_false (by decide) (fun h => h.1 hA)
      · exact iff_of_true rfl ⟨hA, hB⟩
      · exact iff_of_false (by decide) (fun h => hB h.2)

/-- Witness for the monotonicity part of C8 at concrete inputs. -/
theorem determine_proficiency_monotone_witness :
    ([] : List String).length ≤ (List.replicate 10 "s").length ∧ (0 : ℚ) ≤ 90 ∧
    tierRank (determine_proficiency_level [] 0) ≤
      tierRank (determine_proficiency_level (List.replicate 10 "s") 90) :=
  ⟨by simp, by norm_num,
   determine_proficiency_monotone_and_thresholds.1 [] (List.replicate 10 "s") 0 90
     (by simp) (by norm_num)⟩

/-- C9: completion_percentage divides the count of all declared skills (whether
required or not, duplicates included) by the number of required skills, so a
known role with more declared skills than required ones yields a percentage
above 100; it is 0 when the required-skill list is empty. -/
theorem analyze_skill_gaps_completion_percentage :
    (∀ (skills : List String) (role : String),
      (analyze_skill_gaps skills role).completion_percentage =
        if (requiredSkillsFor (normalizeRole role)).isEmpty then 0
        else ((skills.length : ℚ) / ((requiredSkillsFor (normalizeRole role)).length : ℚ)) * 100) ∧
    (analyze_skill_gaps (List.replicate 13 "HTML") "Frontend").total_required = 12 ∧
    100 < (analyze_skill_gaps (List.replicate 13 "HTML") "Frontend").completion_percentage := by
  refine ⟨fun skills role => rfl, rfl, ?_⟩
  show (100 : ℚ) < if (requiredSkillsFor (normalizeRole "Frontend")).isEmpty then 0
      else (((List.replicate 13 "HTML").length : ℚ) /
        ((requiredSkillsFor (normalizeRole "Frontend")).length : ℚ)) * 100
  norm_num [show normalizeRole "Frontend" = "frontend" from rfl,
    show requiredSkillsFor "frontend" =
      ["HTML", "CSS", "JavaScript Basics", "Git", "React", "CSS Frameworks",
       "Responsive Design", "APIs", "State Management", "Performance Optimization",
       "Testing", "Build Tools"] from rfl]

-- AIPathGenerator.generate_fullstack_curriculum: the hand-authored Full Stack
-- Developer track.  The beginner tier is the full eight-module path; every
-- other proficiency string gets the single abbreviated advanced module.

def fullstackBeginnerModules : List PathModule :=
  [ { id := "module_1", title := "Programming Fundamentals",
      description := "Core programming concepts and problem-solving",
      order := 1, difficulty := "beginner",
      topics :=
        [ mkTopic "topic_1_1" "Introduction to Programming"
            "Variables, data types, and basic operations" []
            ["Variables", "Data Types", "Operators", "Input/Output"],
          mkTopic "topic_1_2" "Control Structures"
            "If statements, loops, and logical thinking" ["Introduction to Programming"]
            ["Conditionals", "For Loops", "While Loops", "Break & Continue"],
          mkTopic "topic_1_3" "Functions and Scope"
            "Creating reusable code blocks" ["Control Structures"]
            ["Function Basics", "Parameters", "Return Values", "Scope"],
          mkTopic "topic_1_4" "Data Structures Basics"
            "Arrays, lists, and dictionaries" ["Functions and Scope"]
            ["Arrays", "Lists", "Objects", "Iteration"],
          mkTopic "topic_1_5" "Version Control with Git"
            "Managing code with Git and GitHub" []
            ["Git Basics", "Commits", "Branches", "GitHub"] ] },
    { id := "module_2", title := "Frontend Development",
      description := "Building user interfaces with HTML, CSS, and JavaScript",
      order := 2, difficulty := "beginner",
      topics :=
        [ mkTopic "topic_2_1" "HTML5 Fundamentals"
            "Structure web content with semantic HTML" []
            ["HTML Elements", "Semantic HTML", "Forms", "Accessibility"],
          mkTopic "topic_2_2" "CSS3 Styling"
            "Style and layout web pages" ["HTML5 Fundamentals"]
            ["Selectors", "Box Model", "Flexbox", "Grid", "Responsive Design"],
          mkTopic "topic_2_3" "JavaScript for Web"
            "Make websites interactive" ["CSS3 Styling", "Functions and Scope"]
            ["DOM Manipulation", "Events", "Form Validation", "Async JavaScript"],
          mkTopic "topic_2_4" "Modern CSS"
            "Advanced styling techniques" ["CSS3 Styling"]
            ["Animations", "Transitions", "Custom Properties", "CSS Architecture"] ] },
    { id := "module_3", title := "React Framework",
      description := "Build dynamic UIs with React",
      order := 3, difficulty := "intermediate",
      topics :=
        [ mkTopic "topic_3_1" "React Fundamentals"
            "Components, props, and JSX" ["JavaScript for Web"]
            ["Components", "Props", "JSX", "Rendering"],
          mkTopic "topic_3_2" "State Management"
            "Managing component state" ["React Fundamentals"]
            ["useState", "useEffect", "Lifting State", "Context API"],
          mkTopic "topic_3_3" "React Router"
            "Navigation in React apps" ["State Management"]
            ["Routes", "Navigation", "Parameters", "Protected Routes"],
          mkTopic "topic_3_4" "API Integration"
            "Fetching and displaying data" ["State Management"]
            ["Fetch API", "Axios", "Loading States", "Error Handling"] ] },
    { id := "module_4", title := "Backend Development with Python",
      description := "Server-side programming and APIs",
      order := 4, difficulty := "intermediate",
      topics :=
        [ mkTopic "topic_4_1" "Python Fundamentals"
            "Python syntax and core concepts" ["Programming Fundamentals"]
            ["Python Syntax", "OOP Basics", "Modules", "Error Handling"],
          mkTopic "topic_4_2" "Flask Framework"
            "Building web applications with Flask" ["Python Fundamentals"]
            ["Routes", "Templates", "Request/Response", "Blueprints"],
          mkTopic "topic_4_3" "RESTful API Design"
            "Creating and documenting APIs" ["Flask Framework"]
            ["REST Principles", "HTTP Methods", "Status Codes", "JSON"],
          mkTopic "topic_4_4" "Database Integration"
            "Working with databases" ["Flask Framework"]
            ["SQL Basics", "SQLAlchemy", "CRUD Operations", "Relationships"],
          mkTopic "topic_4_5" "Authentication & Security"
            "Securing your applications" ["RESTful API Design", "Database Integration"]
            ["JWT", "Password Hashing", "CORS", "Input Validation"] ] },
    { id := "module_5", title := "Database Management",
      description := "Data modeling and database operations",
      order := 5, difficulty := "intermediate",
      topics :=
        [ mkTopic "topic_5_1" "SQL Fundamentals"
            "Querying relational databases" []
            ["SELECT Queries", "JOINs", "Aggregations", "Subqueries"],
          mkTopic "topic_5_2" "Database Design"
            "Schema design and normalization" ["SQL Fundamentals"]
            ["ER Diagrams", "Normalization", "Indexes", "Constraints"],
          mkTopic "topic_5_3" "NoSQL Databases"
            "Document databases and MongoDB" ["Database Design"]
            ["MongoDB Basics", "Collections", "Queries", "Aggregation"],
          mkTopic "topic_5_4" "Database Optimization"
            "Performance tuning" ["Database Design"]
            ["Query Optimization", "Indexing Strategies", "Caching", "Transactions"] ] },
    { id := "module_6", title := "Full Stack Integration",
      description := "Connecting frontend and backend",
      order := 6, difficulty := "advanced",
      topics :=
        [ mkTopic "topic_6_1" "Frontend-Backend Communication"
            "Connecting React to Flask API" ["API Integration", "RESTful API Design"]
            ["API Calls", "State Management", "Error Handling", "Loading States"],
          mkTopic "topic_6_2" "File Upload & Management"
            "Handling files in full stack apps" ["Frontend-Backend Communication"]
            ["Multer/FormData", "File Storage", "Image Processing", "Cloud Storage"],
          mkTopic "topic_6_3" "Real-time Features"
            "WebSockets and live updates" ["Frontend-Backend Communication"]
            ["WebSockets", "Socket.io", "Real-time Notifications", "Chat Features"],
          mkTopic "topic_6_4" "Testing Full Stack Apps"
            "Unit and integration testing" ["Frontend-Backend Communication"]
            ["Jest", "Pytest", "Integration Tests", "E2E Testing"] ] },
    { id := "module_7", title := "Deployment & DevOps",
      description := "Deploy applications to production",
      order := 7, difficulty := "advanced",
      topics :=
        [ mkTopic "topic_7_1" "Cloud Platforms"
            "Deploy to cloud services" ["Full Stack Integration"]
            ["Heroku", "AWS", "DigitalOcean", "Vercel/Netlify"],
          mkTopic "topic_7_2" "Docker Containerization"
            "Package apps with Docker" ["Cloud Platforms"]
            ["Docker Basics", "Dockerfile", "Docker Compose", "Container Management"],
          mkTopic "topic_7_3" "CI/CD Pipelines"
            "Automate deployment" ["Docker Containerization"]
            ["GitHub Actions", "Automated Testing", "Deployment Automation", "Rollbacks"],
          mkTopic "topic_7_4" "Monitoring & Logging"
            "Application monitoring" ["CI/CD Pipelines"]
            ["Error Tracking", "Performance Monitoring", "Logging", "Analytics"] ] },
    { id := "module_8", title := "Capstone Project",
      description := "Build a complete full stack application",
      order := 8, difficulty := "advanced",
      topics :=
        [ mkTopic "topic_8_1" "Project Planning"
            "Design your application" ["Deployment & DevOps"]
            ["Requirements", "Database Schema", "API Design", "UI Mockups"],
          mkTopic "topic_8_2" "Backend Implementation"
            "Build the server and database" ["Project Planning"]
            ["API Endpoints", "Database Models", "Authentication", "Business Logic"],
          mkTopic "topic_8_3" "Frontend Implementation"
            "Build the user interface" ["Project Planning"]
            ["Components", "State Management", "API Integration", "Styling"],
          mkTopic "topic_8_4" "Testing & Deployment"
            "Test and deploy your app" ["Backend Implementation", "Frontend Implementation"]
            ["Testing", "Bug Fixes", "Optimization", "Production Deployment"] ] } ]

def fullstackAdvancedModules : List PathModule :=
  [ { id := "module_1", title := "Advanced React Patterns",
      description := "Advanced React techniques",
      order := 1, difficulty := "advanced",
      topics :=
        [ mkTopic "topic_1_1" "Custom Hooks" "Create reusable logic" [] [],
          mkTopic "topic_1_2" "Context & Performance" "Optimize React apps" ["Custom Hooks"] [],
          mkTopic "topic_1_3" "Advanced State Management" "Redux, Zustand, Jotai"
            ["Context & Performance"] [] ] } ]

/-- AIPathGenerator.generate_fullstack_curriculum. -/
def generate_fullstack_curriculum (proficiency : String) : Curriculum :=
  { title := "Full Stack Developer Path"
    description := "Complete journey from beginner to full stack developer"
    target_role := "Full Stack Developer"
    difficulty := proficiency
    modules :=
      if proficiency = "beginner" then fullstackBeginnerModules else fullstackAdvancedModules }

/-- AIPathGenerator.generate_frontend_curriculum.  Note: the module list does
not depend on the proficiency argument in the source. -/
def generate_frontend_curriculum (proficiency : String) : Curriculum :=
  { title := "Frontend Developer Path"
    description := "Become a professional frontend developer"
    target_role := "Frontend Developer"
    difficulty := proficiency
    modules :=
      [ { id := "module_1", title := "HTML & CSS Mastery",
          description := "Master modern HTML and CSS",
          order := 1, difficulty := "beginner",
          topics :=
            [ mkTopic "topic_1_1" "Semantic HTML5" "Modern HTML structure" []
                ["Elements", "Accessibility", "SEO"],
              mkTopic "topic_1_2" "Advanced CSS" "Flexbox, Grid, Animations" ["Semantic HTML5"]
                ["Flexbox", "Grid", "Animations", "Responsive"],
              mkTopic "topic_1_3" "CSS Preprocessors" "SASS/SCSS" ["Advanced CSS"]
                ["Variables", "Mixins", "Nesting"] ] } ] }

def backendBeginnerModules : List PathModule :=
  [ { id := "module_1", title := "Programming Fundamentals",
      description := "Core programming concepts with Python",
      order := 1, difficulty := "beginner",
      topics :=
        [ mkTopic "topic_1_1" "Python Basics" "Variables, data types, and operations" []
            ["Variables", "Data Types", "Operators", "Input/Output"],
          mkTopic "topic_1_2" "Control Flow" "Conditionals and loops" ["Python Basics"]
            ["If/Else", "For Loops", "While Loops", "Break/Continue"],
          mkTopic "topic_1_3" "Functions & Modules" "Creating reusable code" ["Control Flow"]
            ["Functions", "Parameters", "Return Values", "Modules"],
          mkTopic "topic_1_4" "Data Structures" "Lists, dictionaries, and sets" ["Functions & Modules"]
            ["Lists", "Dictionaries", "Sets", "Tuples"] ] },
    { id := "module_2", title := "Web Fundamentals",
      description := "Understanding HTTP and web protocols",
      order := 2, difficulty := "beginner",
      topics :=
        [ mkTopic "topic_2_1" "HTTP Basics" "Understanding HTTP protocol" []
            ["HTTP Methods", "Status Codes", "Headers", "Request/Response"],
          mkTopic "topic_2_2" "REST API Concepts" "RESTful architecture principles" ["HTTP Basics"]
            ["REST Principles", "Resources", "Endpoints", "Stateless Design"] ] },
    { id := "module_3", title := "Flask Framework",
      description := "Building web applications with Flask",
      order := 3, difficulty := "intermediate",
      topics :=
        [ mkTopic "topic_3_1" "Flask Basics" "Setting up Flask applications" ["Web Fundamentals"]
            ["Routes", "Templates", "Request/Response", "Flask App Structure"],
          mkTopic "topic_3_2" "RESTful API Development" "Creating APIs with Flask" ["Flask Basics"]
            ["API Endpoints", "JSON Responses", "Error Handling", "API Documentation"],
          mkTopic "topic_3_3" "Request Validation" "Validating and sanitizing inputs"
            ["RESTful API Development"]
            ["Input Validation", "Data Sanitization", "Error Messages", "Security"] ] },
    { id := "module_4", title := "Database Integration",
      description := "Working with databases",
      order := 4, difficulty := "intermediate",
      topics :=
        [ mkTopic "topic_4_1" "SQL Fundamentals" "Querying relational databases" []
            ["SELECT Queries", "JOINs", "Aggregations", "Subqueries"],
          mkTopic "topic_4_2" "SQLAlchemy ORM" "Object-Relational Mapping" ["SQL Fundamentals"]
            ["Models", "Sessions", "Queries", "Relationships"],
          mkTopic "topic_4_3" "Database Design" "Schema design and normalization" ["SQLAlchemy ORM"]
            ["ER Diagrams", "Normalization", "Indexes", "Constraints"] ] },
    { id := "module_5", title := "Authentication & Security",
      description := "Securing backend applications",
      order := 5, difficulty := "intermediate",
      topics :=
        [ mkTopic "topic_5_1" "Password Security" "Hashing and storing passwords"
            ["Database Integration"]
            ["Password Hashing", "bcrypt", "Salt", "Best Practices"],
          mkTopic "topic_5_2" "JWT Authentication" "Token-based authentication" ["Password Security"]
            ["JWT Basics", "Token Generation", "Token Verification", "Refresh Tokens"],
          mkTopic "topic_5_3" "API Security" "Protecting APIs" ["JWT Authentication"]
            ["CORS", "Rate Limiting", "Input Validation", "SQL Injection Prevention"] ] },
    { id := "module_6", title := "Advanced Backend Topics",
      description := "Scaling and optimization",
      order := 6, difficulty := "advanced",
      topics :=
        [ mkTopic "topic_6_1" "Caching Strategies" "Improving performance with caching"
            ["API Security"]
            ["Redis", "Cache Patterns", "Cache Invalidation", "Performance"],
          mkTopic "topic_6_2" "Message Queues" "Asynchronous task processing" ["Caching Strategies"]
            ["RabbitMQ", "Celery", "Task Queues", "Background Jobs"],
          mkTopic "topic_6_3" "Microservices Architecture" "Building distributed systems"
            ["Message Queues"]
            ["Service Design", "API Gateway", "Service Communication", "Deployment"] ] } ]

def backendAdvancedModules : List PathModule :=
  [ { id := "module_1", title := "Advanced Backend Patterns",
      description := "Advanced backend development techniques",
      order := 1, difficulty := "advanced",
      topics :=
        [ mkTopic "topic_1_1" "Design Patterns" "Backend design patterns" []
            ["Singleton", "Factory", "Observer", "Strategy"],
          mkTopic "topic_1_2" "Performance Optimization" "Optimizing backend performance"
            ["Design Patterns"]
            ["Profiling", "Database Optimization", "Caching", "Load Balancing"] ] } ]

/-- AIPathGenerator.generate_backend_curriculum. -/
def generate_backend_curriculum (proficiency : String) : Curriculum :=
  { title := "Backend Developer Path"
    description := "Master server-side development and APIs"
    target_role := "Backend Developer"
    difficulty := proficiency
    modules :=
      if proficiency = "beginner" then backendBeginnerModules else backendAdvancedModules }

def datascienceBeginnerModules : List PathModule :=
  [ { id := "module_1", title := "Python for Data Science",
      description := "Python fundamentals for data analysis",
      order := 1, difficulty := "beginner",
      topics :=
        [ mkTopic "topic_1_1" "Python Basics" "Core Python programming" []
            ["Variables", "Data Types", "Control Flow", "Functions"],
          mkTopic "topic_1_2" "NumPy Fundamentals" "Numerical computing with NumPy" ["Python Basics"]
            ["Arrays", "Operations", "Indexing", "Broadcasting"],
          mkTopic "topic_1_3" "Pandas Basics" "Data manipulation with Pandas" ["NumPy Fundamentals"]
            ["DataFrames", "Series", "Data Cleaning", "Filtering"] ] },
    { id := "module_2", title := "Data Analysis",
      description := "Analyzing and exploring data",
      order := 2, difficulty := "beginner",
      topics :=
        [ mkTopic "topic_2_1" "Data Exploration" "Understanding your data" ["Pandas Basics"]
            ["Descriptive Statistics", "Data Types", "Missing Values", "Outliers"],
          mkTopic "topic_2_2" "Data Visualization" "Visualizing data insights" ["Data Exploration"]
            ["Matplotlib", "Seaborn", "Plot Types", "Customization"] ] },
    { id := "module_3", title := "Statistics Fundamentals",
      description := "Statistical concepts for data science",
      order := 3, difficulty := "intermediate",
      topics :=
        [ mkTopic "topic_3_1" "Descriptive Statistics" "Measures of central tendency" []
            ["Mean", "Median", "Mode", "Variance", "Standard Deviation"],
          mkTopic "topic_3_2" "Probability" "Probability theory basics" ["Descriptive Statistics"]
            ["Probability Distributions", "Bayes Theorem", "Random Variables"],
          mkTopic "topic_3_3" "Inferential Statistics" "Making inferences from data" ["Probability"]
            ["Hypothesis Testing", "Confidence Intervals", "P-values", "Statistical Tests"] ] },
    { id := "module_4", title := "Machine Learning Basics",
      description := "Introduction to machine learning",
      order := 4, difficulty := "intermediate",
      topics :=
        [ mkTopic "topic_4_1" "ML Fundamentals" "Core ML concepts" ["Statistics Fundamentals"]
            ["Supervised Learning", "Unsupervised Learning", "Training/Testing", "Overfitting"],
          mkTopic "topic_4_2" "Linear Regression" "Predicting continuous values" ["ML Fundamentals"]
            ["Simple Regression", "Multiple Regression", "Evaluation Metrics", "Scikit-learn"],
          mkTopic "topic_4_3" "Classification" "Predicting categories" ["Linear Regression"]
            ["Logistic Regression", "Decision Trees", "Random Forest", "Evaluation"] ] } ]

def datascienceAdvancedModules : List PathModule :=
  [ { id := "module_1", title := "Advanced Machine Learning",
      description := "Advanced ML techniques",
      order := 1, difficulty := "advanced",
      topics :=
        [ mkTopic "topic_1_1" "Deep Learning" "Neural networks and deep learning" []
            ["Neural Networks", "TensorFlow", "Keras", "CNNs"] ] } ]

/-- AIPathGenerator.generate_datascience_curriculum. -/
def generate_datascience_curriculum (proficiency : String) : Curriculum :=
  { title := "Data Scientist Path"
    description := "Master data analysis and machine learning"
    target_role := "Data Scientist"
    difficulty := proficiency
    modules :=
      if proficiency = "beginner" then datascienceBeginnerModules else datascienceAdvancedModules }

def mobileBeginnerModules : List PathModule :=
  [ { id := "module_1", title := "Mobile Development Fundamentals",
      description := "Introduction to mobile app development",
      order := 1, difficulty := "beginner",
      topics :=
        [ mkTopic "topic_1_1" "Mobile App Architecture" "Understanding mobile app structure" []
            ["App Lifecycle", "Navigation", "State Management", "Platform Differences"],
          mkTopic "topic_1_2" "React Native Basics" "Building cross-platform apps"
            ["Mobile App Architecture"]
            ["Components", "Props", "State", "Styling"],
          mkTopic "topic_1_3" "Navigation" "App navigation patterns" ["React Native Basics"]
            ["React Navigation", "Stack Navigator", "Tab Navigator", "Deep Linking"] ] },
    { id := "module_2", title := "State Management",
      description := "Managing app state",
      order := 2, difficulty := "intermediate",
      topics :=
        [ mkTopic "topic_2_1" "Context API" "React Context for state" ["Navigation"]
            ["Context Creation", "Providers", "Consumers", "Best Practices"],
          mkTopic "topic_2_2" "Redux" "Advanced state management" ["Context API"]
            ["Store", "Actions", "Reducers", "Middleware"] ] },
    { id := "module_3", title := "Native Features",
      description := "Accessing device features",
      order := 3, difficulty := "intermediate",
      topics :=
        [ mkTopic "topic_3_1" "Camera & Media" "Working with camera and media" ["State Management"]
            ["Camera Access", "Image Picker", "Video Recording", "Media Library"],
          mkTopic "topic_3_2" "Location Services" "GPS and location features" ["Camera & Media"]
            ["Geolocation", "Maps Integration", "Location Tracking"],
          mkTopic "topic_3_3" "Push Notifications" "Sending notifications" ["Location Services"]
            ["Local Notifications", "Remote Notifications", "Notification Handling"] ] } ]

def mobileAdvancedModules : List PathModule :=
  [ { id := "module_1", title := "Advanced Mobile Development",
      description := "Advanced mobile app techniques",
      order := 1, difficulty := "advanced",
      topics :=
        [ mkTopic "topic_1_1" "Performance Optimization" "Optimizing mobile apps" []
            ["Memory Management", "Bundle Size", "Rendering Optimization"] ] } ]

/-- AIPathGenerator.generate_mobile_curriculum. -/
def generate_mobile_curriculum (proficiency : String) : Curriculum :=
  { title := "Mobile App Developer Path"
    description := "Build iOS and Android applications"
    target_role := "Mobile App Developer"
    difficulty := proficiency
    modules :=
      if proficiency = "beginner" then mobileBeginnerModules else mobileAdvancedModules }

def devopsBeginnerModules : List PathModule :=
  [ { id := "module_1", title := "Linux & Command Line",
      description := "Mastering the command line",
      order := 1, difficulty := "beginner",
      topics :=
        [ mkTopic "topic_1_1" "Linux Basics" "Linux fundamentals" []
            ["File System", "Permissions", "Processes", "Package Management"],
          mkTopic "topic_1_2" "Shell Scripting" "Automating tasks with scripts" ["Linux Basics"]
            ["Bash Scripts", "Variables", "Loops", "Functions"] ] },
    { id := "module_2", title := "Version Control",
      description := "Git and version control",
      order := 2, difficulty := "beginner",
      topics :=
        [ mkTopic "topic_2_1" "Git Fundamentals" "Version control basics" []
            ["Commits", "Branches", "Merging", "Remote Repositories"],
          mkTopic "topic_2_2" "Git Workflows" "Collaborative workflows" ["Git Fundamentals"]
            ["Feature Branches", "Pull Requests", "Code Review", "Merge Strategies"] ] },
    { id := "module_3", title := "Containerization",
      description := "Docker and containers",
      order := 3, difficulty := "intermediate",
      topics :=
        [ mkTopic "topic_3_1" "Docker Basics" "Container fundamentals" ["Version Control"]
            ["Images", "Containers", "Dockerfile", "Docker Compose"],
          mkTopic "topic_3_2" "Container Orchestration" "Managing containers at scale"
            ["Docker Basics"]
            ["Docker Swarm", "Kubernetes Basics", "Pods", "Services"] ] },
    { id := "module_4", title := "CI/CD Pipelines",
      description := "Continuous integration and deployment",
      order := 4, difficulty := "intermediate",
      topics :=
        [ mkTopic "topic_4_1" "CI/CD Concepts" "Understanding CI/CD" ["Containerization"]
            ["Continuous Integration", "Continuous Deployment", "Pipeline Stages", "Best Practices"],
          mkTopic "topic_4_2" "GitHub Actions" "Automating workflows" ["CI/CD Concepts"]
            ["Workflows", "Actions", "Secrets", "Deployment"] ] } ]

def devopsAdvancedModules : List PathModule :=
  [ { id := "module_1", title := "Advanced DevOps",
      description := "Advanced DevOps practices",
      order := 1, difficulty := "advanced",
      topics :=
        [ mkTopic "topic_1_1" "Kubernetes Advanced" "Advanced Kubernetes" []
            ["Deployments", "Services", "Ingress", "Helm"] ] } ]

/-- AIPathGenerator.generate_devops_curriculum. -/
def generate_devops_curriculum (proficiency : String) : Curriculum :=
  { title := "DevOps Engineer Path"
    description := "Master CI/CD, automation, and infrastructure"
    target_role := "DevOps Engineer"
    difficulty := proficiency
    modules :=
      if proficiency = "beginner" then devopsBeginnerModules else devopsAdvancedModules }

/-- AIPathGenerator.build_curriculum: ordered substring/equality routing from the
normalized role key to a track generator (the skill_gaps and learning_pace
arguments are accepted but unused, as in the source). -/
def build_curriculum (target_role : String) (skill_gaps : SkillGapResult)
    (proficiency : String) (learning_pace : String) : Curriculum :=
  let role_key := normalizeRole target_role
  if role_key = "fullstack" ∨ role_key = "full_stack_developer" then
    generate_fullstack_curriculum proficiency
  else if role_key = "frontend" ∨ containsSub role_key "frontend" then
    generate_frontend_curriculum proficiency
  else if role_key = "backend" ∨ containsSub role_key "backend" then
    generate_backend_curriculum proficiency
  else if containsSub role_key "data" ∨ role_key = "data_scientist" then
    generate_datascience_curriculum proficiency
  else if containsSub role_key "mobile" ∨ role_key = "mobile_app_developer" then
    generate_mobile_curriculum proficiency
  else if containsSub role_key "machine_learning" ∨ containsSub role_key "ml" then
    { generate_datascience_curriculum proficiency with
        title := "Machine Learning Engineer Path", target_role := "Machine Learning Engineer" }
  else if containsSub role_key "ai" ∨ role_key = "ai_engineer" then
    { generate_datascience_curriculum proficiency with
        title := "AI Engineer Path", target_role := "AI Engineer" }
  else if containsSub role_key "devops" then
    generate_devops_curriculum proficiency
  else
    generate_fullstack_curriculum proficiency

/-- Modelled from the claim for C3: the ordered rule list exactly as the claim
states it (equality with fullstack or full_stack_developer, then substring
checks in order, any unmatched role falling back to the fullstack track). -/
def buildCurriculumClaim (target_role : String) (skill_gaps : SkillGapResult)
    (proficiency : String) (learning_pace : String) : Curriculum :=
  let k := normalizeRole target_role
  if k = "fullstack" ∨ k = "full_stack_developer" then
    generate_fullstack_curriculum proficiency
  else if containsSub k "frontend" then
    generate_frontend_curriculum proficiency
  else if containsSub k "backend" then
    generate_backend_curriculum proficiency
  else if containsSub k "data" then
    generate_datascience_curriculum proficiency
  else if containsSub k "mobile" then
    generate_mobile_curriculum proficiency
  else if containsSub k "machine_learning" ∨ containsSub k "ml" then
    { generate_datascience_curriculum proficiency with
        title := "Machine Learning Engineer Path", target_role := "Machine Learning Engineer" }
  else if containsSub k "ai" then
    { generate_datascience_curriculum proficiency with
        title := "AI Engineer Path", target_role := "AI Engineer" }
  else if containsSub k "devops" then
    generate_devops_curriculum proficiency
  else
    generate_fullstack_curriculum proficiency

/-- C3: build_curriculum agrees everywhere with the routing rule list of the
claim: the role key is normalized (lowercase, spaces to underscores), the first
matching rule selects the track generator, and any role matching no rule gets
the fullstack curriculum. -/
theorem build_curriculum_routing (target_role : String) (skill_gaps : SkillGapResult)
    (proficiency : String) (learning_pace : String) :
    build_curriculum target_role skill_gaps proficiency learning_pace =
      buildCurriculumClaim target_role skill_gaps proficiency learning_pace := by
  unfold build_curriculum buildCurriculumClaim
  have habs : ∀ k key : String,
      ((k = key ∨ containsSub k key = true) ↔ containsSub k key = true) := by
    intro k key
    constructor
    · intro h
      rcases h with h | h
      · rw [h]; exact containsSub_self key
      · exact h
    · exact Or.inr
  have hdata : ∀ k : String,
      ((containsSub k "data" = true ∨ k = "data_scientist") ↔ containsSub k "data" = true) := by
    intro k
    constructor
    · intro h
      rcases h with h | h
      · exact h
      · rw [h]; decide
    · exact Or.inl
  have hmobile : ∀ k : String,
      ((containsSub k "mobile" = true ∨ k = "mobile_app_developer") ↔
        containsSub k "mobile" = true) := by
    intro k
    constructor
    · intro h
      rcases h with h | h
      · exact h
      · rw [h]; decide
    · exact Or.inl
  have hai : ∀ k : String,
      ((containsSub k "ai" = true ∨ k = "ai_engineer") ↔ containsSub k "ai" = true) := by
    intro k
    constructor
    · intro h
      rcases h with h | h
      · exact h
      · rw [h]; decide
    · exact Or.inl
  simp only [habs, hdata, hmobile, hai]

/-- Counterexample to C2 as stated: for the frontend track the generator returns
the identical module list for the beginner and the intermediate proficiency, so
the curriculum does not differ materially between the tiers for every track. -/
theorem frontend_generator_proficiency_cex :
    (generate_frontend_curriculum "beginner").modules =
      (generate_frontend_curriculum "intermediate").modules := rfl

/-- C2 amended: for every track except frontend the generator branches on the
beginner tier, returning the full multi-module beginner path for "beginner" and
a distinct single abbreviated advanced module set for every other proficiency
string; the frontend generator returns the same module list for every
proficiency. -/
theorem track_generators_tier_asymmetry :
    (∀ p : String, (generate_frontend_curriculum p).modules =
        (generate_frontend_curriculum "beginner").modules) ∧
    (∀ p : String, p ≠ "beginner" →
      (generate_fullstack_curriculum p).modules = fullstackAdvancedModules ∧
      (generate_backend_curriculum p).modules = backendAdvancedModules ∧
      (generate_datascience_curriculum p).modules = datascienceAdvancedModules ∧
      (generate_mobile_curriculum p).modules = mobileAdvancedModules ∧
      (generate_devops_curriculum p).modules = devopsAdvancedModules) ∧
    (generate_fullstack_curriculum "beginner").modules.length = 8 ∧
    (generate_backend_curriculum "beginner").modules.length = 6 ∧
    (generate_datascience_curriculum "beginner").modules.length = 4 ∧
    (generate_mobile_curriculum "beginner").modules.length = 3 ∧
    (generate_devops_curriculum "beginner").modules.length = 4 ∧
    fullstackAdvancedModules.length = 1 ∧
    backendAdvancedModules.length = 1 ∧
    datascienceAdvancedModules.length = 1 ∧
    mobileAdvancedModules.length = 1 ∧
    devopsAdvancedModules.length = 1 := by
  refine ⟨fun p => rfl, ?_, rfl, rfl, rfl, rfl, rfl, rfl, rfl, rfl, rfl, rfl⟩
  intro p hp
  unfold generate_fullstack_curriculum generate_backend_curriculum
    generate_datascience_curriculum generate_mobile_curriculum generate_devops_curriculum
  simp [if_neg hp]

/-- Witness for the non-beginner branch of the amended C2 at the concrete
proficiency string "advanced". -/
theorem track_generators_tier_asymmetry_witness :
    ("advanced" : String) ≠ "beginner" ∧
    ((generate_fullstack_curriculum "advanced").modules = fullstackAdvancedModules ∧
      (generate_backend_curriculum "advanced").modules = backendAdvancedModules ∧
      (generate_datascience_curriculum "advanced").modules = datascienceAdvancedModules ∧
      (generate_mobile_curriculum "advanced").modules = mobileAdvancedModules ∧
      (generate_devops_curriculum "advanced").modules = devopsAdvancedModules) :=
  ⟨by decide, track_generators_tier_asymmetry.2.1 "advanced" (by decide)⟩

/-- The per-topic locking step of optimize_learning_sequence: the topic is
locked unless all of its prerequisites appear, lowercased, in the (already
lowercased) skill list. -/
def lockTopic (current_skills_lower : List String) (t : Topic) : Topic :=
  { t with
      locked := some (!(t.prerequisites.all
        (fun p => current_skills_lower.contains (strLower p)))) }

/-- The per-module locking step of optimize_learning_sequence. -/
def lockModule (current_skills_lower : List String) (m : PathModule) : PathModule :=
  { m with topics := m.topics.map (lockTopic current_skills_lower) }

/-- AIPathGenerator.optimize_learning_sequence: marks every topic locked exactly
when not all of its prerequisites appear, lowercased, in the lowercased current
skill list. -/
def optimize_learning_sequence (curriculum : Curriculum) (current_skills : List String) :
    Curriculum :=
  { curriculum with
      modules := curriculum.modules.map (lockModule (current_skills.map strLower)) }

theorem contains_iff_mem_str (a : String) (l : List String) :
    (l.contains a = true) ↔ a ∈ l :=
  List.elem_iff

/-- C7: after optimize_learning_sequence every topic carries a locked flag that
is true exactly when some prerequisite, compared case-insensitively, is absent
from the skills of the user; a topic with no prerequisites is unlocked; and applying
the operation twice with the same skills equals applying it once. -/
theorem optimize_learning_sequence_locking (c : Curriculum) (skills : List String) :
    (∀ m ∈ (optimize_learning_sequence c skills).modules, ∀ t ∈ m.topics,
      (t.locked = some true ↔ ∃ p ∈ t.prerequisites, strLower p ∉ skills.map strLower) ∧
      (t.prerequisites = [] → t.locked = some false)) ∧
    optimize_learning_sequence (optimize_learning_sequence c skills) skills =
      optimize_learning_sequence c skills := by
  constructor
  · intro m hm t ht
    simp only [optimize_learning_sequence, List.mem_map] at hm
    obtain ⟨m₀, hm₀, rfl⟩ := hm
    simp only [lockModule, List.mem_map] at ht
    obtain ⟨t₀, ht₀, rfl⟩ := ht
    constructor
    · have h1 : ((lockTopic (skills.map strLower) t₀).locked = some true) ↔
          ¬ (t₀.prerequisites.all
              (fun p => (skills.map strLower).contains (strLower p)) = true) := by
        simp [lockTopic]
      rw [h1, List.all_eq_true]
      simp only [contains_iff_mem_str]
      push_neg
      rfl
    · intro hpre
      have hpre' : t₀.prerequisites = [] := hpre
      simp [lockTopic, hpre']
  · unfold optimize_learning_sequence
    simp only [List.map_map]
    congr 1
    apply List.map_congr_left
    intro m hm
    show lockModule (skills.map strLower) (lockModule (skills.map strLower) m) = _
    unfold lockModule
    simp only [List.map_map]
    congr 1

-- AIPathGenerator.calculate_time_estimates.  The call random.randint(2, 8) is
-- modelled by an explicit stream of integer draws indexed by the number of
-- topics already visited; Python round(x, 1) becomes round1 and int(x)
-- (truncation towards zero) becomes truncQ.

/-- Models Python round(x, 1) on the rational model of floats. -/
def round1 (x : ℚ) : ℚ := ((round (10 * x) : ℤ) : ℚ) / 10

/-- Models Python int(x): truncation towards zero. -/
def truncQ (x : ℚ) : ℤ := if 0 ≤ x then ⌊x⌋ else ⌈x⌉

/-- The proficiency multiplier table of calculate_time_estimates, with the
default of 1.0 for unrecognized proficiency strings. -/
def multiplierFor (proficiency : String) : ℚ :=
  if proficiency = "beginner" then 3 / 2
  else if proficiency = "intermediate" then 1
  else if proficiency = "advanced" then 7 / 10
  else 1

/-- The inner topic loop of calculate_time_estimates: returns the updated
topics, the accumulated unrounded module_hours, and the next draw index. -/
def estimateTopics (mult : ℚ) (draws : Nat → ℤ) : Nat → List Topic → List Topic × ℚ × Nat
  | i, [] => ([], 0, i)
  | i, t :: ts =>
    let adjusted_hours : ℚ := (draws i : ℚ) * mult
    let r := estimateTopics mult draws (i + 1) ts
    ({ t with estimated_hours := some (round1 adjusted_hours) } :: r.1,
      adjusted_hours + r.2.1, r.2.2)

/-- The module loop of calculate_time_estimates: returns the updated modules,
the accumulated unrounded total_weeks, and the next draw index. -/
def estimateModules (daily_hours mult : ℚ) (draws : Nat → ℤ) :
    Nat → List PathModule → List PathModule × ℚ × Nat
  | _, [] => ([], 0, 0)
  | i, m :: ms =>
    let tr := estimateTopics mult draws i m.topics
    let r := estimateModules daily_hours mult draws tr.2.2 ms
    ({ m with
        topics := tr.1
        estimated_hours := some (round1 tr.2.1)
        estimated_days := some (if 0 < daily_hours then truncQ (tr.2.1 / daily_hours) else 0) }
      :: r.1,
      (if 0 < daily_hours then tr.2.1 / daily_hours / 7 else 0) + r.2.1, r.2.2)

/-- AIPathGenerator.calculate_time_estimates. -/
def calculate_time_estimates (curriculum : Curriculum) (daily_hours : ℚ)
    (proficiency : String) (draws : Nat → ℤ) : Curriculum :=
  let mult := multiplierFor proficiency
  let r := estimateModules daily_hours mult draws 0 curriculum.modules
  { curriculum with
      modules := r.1
      total_estimated_weeks := some (truncQ r.2.1)
      total_estimated_hours := some ((r.1.map (fun m => m.estimated_hours.getD 0)).sum) }

theorem round1_exact {x : ℚ} (n : ℤ) (hn : (n : ℚ) = 10 * x) : round1 x = x := by
  unfold round1
  rw [← hn, round_intCast]
  field_simp
  linarith [hn]

theorem multiplierFor_pos (p : String) : 0 < multiplierFor p := by
  unfold multiplierFor
  split_ifs <;> norm_num

theorem multiplierFor_ten (p : String) : ∃ n : ℤ, (n : ℚ) = 10 * multiplierFor p := by
  unfold multiplierFor
  split_ifs
  · exact ⟨15, by norm_num⟩
  · exact ⟨10, by norm_num⟩
  · exact ⟨7, by norm_num⟩
  · exact ⟨10, by norm_num⟩

theorem estimateTopics_spec (mult : ℚ) (draws : Nat → ℤ)
    (hpos : 0 < mult) (hten : ∃ n : ℤ, (n : ℚ) = 10 * mult)
    (hd : ∀ i, 2 ≤ draws i ∧ draws i ≤ 8) (ts : List Topic) :
    ∀ i : Nat,
      (∀ t ∈ (estimateTopics mult draws i ts).1, ∃ v, t.estimated_hours = some v ∧
        2 * mult ≤ v ∧ v ≤ 8 * mult) ∧
      (∃ n : ℤ, (n : ℚ) = 10 * (estimateTopics mult draws i ts).2.1) ∧
      0 ≤ (estimateTopics mult draws i ts).2.1 := by
  obtain ⟨n, hn⟩ := hten
  induction ts with
  | nil =>
    intro i
    refine ⟨by simp [estimateTopics], ⟨0, by simp [estimateTopics]⟩, by simp [estimateTopics]⟩
  | cons t rest ih =>
    intro i
    obtain ⟨ih1, ⟨mrest, hmrest⟩, ihnn⟩ := ih (i + 1)
    have hdi := hd i
    have h2 : (2 : ℚ) ≤ (draws i : ℚ) := by exact_mod_cast hdi.1
    have h8 : ((draws i : ℚ)) ≤ 8 := by exact_mod_cast hdi.2
    have hadj10 : ((draws i * n : ℤ) : ℚ) = 10 * ((draws i : ℚ) * mult) := by
      push_cast
      rw [hn]
      ring
    have hadjnn : 0 ≤ (draws i : ℚ) * mult :=
      mul_nonneg (by linarith) (le_of_lt hpos)
    simp only [estimateTopics]
    refine ⟨?_, ⟨draws i * n + mrest, ?_⟩, ?_⟩
    · intro t' ht'
      simp only [List.mem_cons] at ht'
      rcases ht' with rfl | ht'
      · refine ⟨(draws i : ℚ) * mult,
          by simp [round1_exact (draws i * n) hadj10], ?_, ?_⟩
        · nlinarith
        · nlinarith
      · exact ih1 t' ht'
    · push_cast
      rw [hn, hmrest]
      ring
    · exact add_nonneg hadjnn ihnn

theorem estimateModules_spec (d mult : ℚ) (draws : Nat → ℤ)
    (hpos : 0 < mult) (hten : ∃ n : ℤ, (n : ℚ) = 10 * mult)
    (hd : ∀ i, 2 ≤ draws i ∧ draws i ≤ 8) (ms : List PathModule) :
    ∀ i : Nat,
      (∀ m ∈ (estimateModules d mult draws i ms).1, ∀ t ∈ m.topics,
        ∃ v, t.estimated_hours = some v ∧ 2 * mult ≤ v ∧ v ≤ 8 * mult) ∧
      ((estimateModules d mult draws i ms).2.1 =
        (((estimateModules d mult draws i ms).1.map
          (fun m => if 0 < d then m.estimated_hours.getD 0 / d / 7 else 0)).sum)) ∧
      0 ≤ (estimateModules d mult draws i ms).2.1 := by
  induction ms with
  | nil =>
    intro i
    exact ⟨by simp [estimateModules], by simp [estimateModules], by simp [estimateModules]⟩
  | cons m rest ih =>
    intro i
    obtain ⟨ht1, ⟨nm, hnm⟩, htnn⟩ :=
      estimateTopics_spec mult draws hpos hten hd m.topics i
    obtain ⟨ih1, ih2, ihnn⟩ := ih (estimateTopics mult draws i m.topics).2.2
    have hr1 : round1 (estimateTopics mult draws i m.topics).2.1 =
        (estimateTopics mult draws i m.topics).2.1 := round1_exact nm hnm
    simp only [estimateModules]
    refine ⟨?_, ?_, ?_⟩
    · intro m' hm'
      simp only [List.mem_cons] at hm'
      rcases hm' with rfl | hm'
      · intro t ht
        exact ht1 t ht
      · exact ih1 m' hm'
    · simp only [List.map_cons, List.sum_cons, Option.getD_some, hr1]
      rw [ih2]
    · have hfst : 0 ≤ (if 0 < d then (estimateTopics mult draws i m.topics).2.1 / d / 7 else 0) := by
        split_ifs with hdp
        · positivity
        · exact le_refl 0
      exact add_nonneg hfst ihnn

/-- C4: every topic estimate produced by calculate_time_estimates lies between
2 and 8 times the proficiency multiplier (1.5 for beginner, 1.0 for
intermediate, 0.7 for advanced, 1.0 otherwise), and total_estimated_weeks is
the floor, taken once at the end, of the sum over modules of
module_hours / daily_hours / 7 when daily_hours is positive, and 0 otherwise. -/
theorem calculate_time_estimates_bounds_and_weeks (c : Curriculum) (d : ℚ) (p : String)
    (draws : Nat → ℤ) (hd : ∀ i, 2 ≤ draws i ∧ draws i ≤ 8) :
    (∀ m ∈ (calculate_time_estimates c d p draws).modules, ∀ t ∈ m.topics,
      ∃ v, t.estimated_hours = some v ∧
        2 * multiplierFor p ≤ v ∧ v ≤ 8 * multiplierFor p) ∧
    ((calculate_time_estimates c d p draws).total_estimated_weeks =
      some (if 0 < d then
          ⌊((calculate_time_estimates c d p draws).modules.map
              (fun m => m.estimated_hours.getD 0 / d / 7)).sum⌋
        else 0)) ∧
    multiplierFor "beginner" = 3 / 2 ∧ multiplierFor "intermediate" = 1 ∧
    multiplierFor "advanced" = 7 / 10 ∧
    ∀ s : String, s ≠ "beginner" → s ≠ "intermediate" → s ≠ "advanced" →
      multiplierFor s = 1 := by
  obtain ⟨s1, s2, s3⟩ :=
    estimateModules_spec d (multiplierFor p) draws (multiplierFor_pos p)
      (multiplierFor_ten p) hd c.modules 0
  refine ⟨s1, ?_,
    by unfold multiplierFor; rw [if_pos rfl],
    by unfold multiplierFor; rw [if_neg (by decide), if_pos rfl],
    by unfold multiplierFor; rw [if_neg (by decide), if_neg (by decide), if_pos rfl], ?_⟩
  · show some (truncQ (estimateModules d (multiplierFor p) draws 0 c.modules).2.1) = _
    by_cases hdp : 0 < d
    · simp only [if_pos hdp] at s2 ⊢
      rw [show truncQ (estimateModules d (multiplierFor p) draws 0 c.modules).2.1 =
          ⌊(estimateModules d (multiplierFor p) draws 0 c.modules).2.1⌋ from if_pos s3]
      rw [s2]
      rfl
    · have hz : ∀ l : List PathModule, (l.map (fun _ => (0 : ℚ))).sum = 0 := by
        intro l
        induction l with
        | nil => simp
        | cons x xs ih => simp [ih]
      simp only [if_neg hdp] at s2 ⊢
      rw [hz] at s2
      rw [s2]
      rfl
  · intro s h1 h2 h3
    unfold multiplierFor
    rw [if_neg h1, if_neg h2, if_neg h3]

/-- Concrete one-module curriculum used to witness C4. -/
def estWitnessCurriculum : Curriculum :=
  { title := "Full Stack Developer Path"
    description := "Complete journey from beginner to full stack developer"
    target_role := "Full Stack Developer"
    difficulty := "beginner"
    modules :=
      [ { id := "module_1", title := "Programming Fundamentals",
          description := "Core programming concepts and problem-solving",
          order := 1, difficulty := "beginner",
          topics := [mkTopic "topic_1_1" "Introduction to Programming"
            "Variables, data types, and basic operations" []
            ["Variables", "Data Types", "Operators", "Input/Output"]] } ] }

/-- Concrete constant draw stream used to witness C4. -/
def estWitnessDraws : Nat → ℤ := fun _ => 5

/-- Witness for C4 at a concrete curriculum, daily hours 2, proficiency
beginner and the constant draw 5. -/
theorem calculate_time_estimates_witness :
    (∀ i : Nat, 2 ≤ estWitnessDraws i ∧ estWitnessDraws i ≤ 8) ∧
    ((∀ m ∈ (calculate_time_estimates estWitnessCurriculum 2 "beginner" estWitnessDraws).modules,
        ∀ t ∈ m.topics,
      ∃ v, t.estimated_hours = some v ∧
        2 * multiplierFor "beginner" ≤ v ∧ v ≤ 8 * multiplierFor "beginner") ∧
    ((calculate_time_estimates estWitnessCurriculum 2 "beginner" estWitnessDraws).total_estimated_weeks =
      some (if 0 < (2 : ℚ) then
          ⌊((calculate_time_estimates estWitnessCurriculum 2 "beginner" estWitnessDraws).modules.map
              (fun m => m.estimated_hours.getD 0 / 2 / 7)).sum⌋
        else 0)) ∧
    multiplierFor "beginner" = 3 / 2 ∧ multiplierFor "intermediate" = 1 ∧
    multiplierFor "advanced" = 7 / 10 ∧
    ∀ s : String, s ≠ "beginner" → s ≠ "intermediate" → s ≠ "advanced" →
      multiplierFor s = 1) :=
  ⟨fun i => by constructor <;> norm_num [estWitnessDraws],
   calculate_time_estimates_bounds_and_weeks estWitnessCurriculum 2 "beginner" estWitnessDraws
     (fun i => by constructor <;> norm_num [estWitnessDraws])⟩

-- AIAdaptiveLearning.adapt_curriculum.

/-- One performance record as consumed by adapt_curriculum; the score key may
be absent (p.get with default 0). -/
structure PerformanceRecord where
  score : Option ℚ := none
deriving DecidableEq

structure PaceAdjustment where
  type : String
  message : String
deriving DecidableEq

structure TopicAddition where
  topic : String
  reason : String
deriving DecidableEq

/-- The adaptation result; difficulty_changes and topic_removals are never
populated by the source, so their element type is unconstrained and modelled
as String. -/
structure AdaptationSet where
  difficulty_changes : List String
  topic_additions : List TopicAddition
  topic_removals : List String
  pace_adjustments : List PaceAdjustment
deriving DecidableEq

/-- The average performance computed by adapt_curriculum: sum of the score
fields divided by the record count, 0 for an empty record list. -/
def avgScore (user_performance : List PerformanceRecord) : ℚ :=
  if user_performance.isEmpty then 0
  else (user_performance.map (fun p => p.score.getD 0)).sum / (user_performance.length : ℚ)

/-- AIAdaptiveLearning.adapt_curriculum (the current_path argument is accepted
but unused, as in the source). -/
def adapt_curriculum (user_performance : List PerformanceRecord) (current_path : Curriculum) :
    AdaptationSet :=
  let avg_performance := avgScore user_performance
  if avg_performance > 9 / 10 then
    { difficulty_changes := [], topic_additions := [], topic_removals := []
      pace_adjustments :=
        [{ type := "accelerate"
           message := "You\x27re doing great! Consider skipping some basic topics." }] }
  else if avg_performance < 6 / 10 then
    { difficulty_changes := []
      topic_additions :=
        [{ topic := "Review Session: Fundamentals", reason := "Strengthen core concepts" }]
      topic_removals := []
      pace_adjustments :=
        [{ type := "slow_down"
           message := "Let\x27s reinforce fundamentals before moving forward." }] }
  else
    { difficulty_changes := [], topic_additions := [], topic_removals := []
      pace_adjustments := [] }

/-- C5: adapt_curriculum emits exactly one accelerate pace adjustment and
nothing else when the average score exceeds 0.9, a slow_down adjustment plus
the fixed Review Session: Fundamentals topic addition when the average is below
0.6, and no adaptations at all for averages between 0.6 and 0.9 inclusive. -/
theorem adapt_curriculum_thresholds (perf : List PerformanceRecord) (path : Curriculum) :
    (avgScore perf > 9 / 10 →
      adapt_curriculum perf path =
        { difficulty_changes := [], topic_additions := [], topic_removals := []
          pace_adjustments :=
            [{ type := "accelerate"
               message := "You\x27re doing great! Consider skipping some basic topics." }] }) ∧
    (avgScore perf < 6 / 10 →
      adapt_curriculum perf path =
        { difficulty_changes := []
          topic_additions :=
            [{ topic := "Review Session: Fundamentals", reason := "Strengthen core concepts" }]
          topic_removals := []
          pace_adjustments :=
            [{ type := "slow_down"
               message := "Let\x27s reinforce fundamentals before moving forward." }] }) ∧
    (6 / 10 ≤ avgScore perf → avgScore perf ≤ 9 / 10 →
      adapt_curriculum perf path =
        { difficulty_changes := [], topic_additions := [], topic_removals := []
          pace_adjustments := [] }) := by
  refine ⟨?_, ?_, ?_⟩
  · intro h
    unfold adapt_curriculum
    rw [if_pos h]
  · intro h
    unfold adapt_curriculum
    rw [if_neg (by linarith), if_pos h]
  · intro h1 h2
    unfold adapt_curriculum
    rw [if_neg (by linarith), if_neg (by linarith)]

/-- Witness for C5 at the three concrete averages 0.95, 0.3 and 0.7. -/
theorem adapt_curriculum_thresholds_witness :
    (avgScore [{ score := some (19 / 20) }] > 9 / 10 ∧
      (adapt_curriculum [{ score := some (19 / 20) }] estWitnessCurriculum).pace_adjustments =
        [{ type := "accelerate"
           message := "You\x27re doing great! Consider skipping some basic topics." }]) ∧
    (avgScore [{ score := some (3 / 10) }] < 6 / 10 ∧
      (adapt_curriculum [{ score := some (3 / 10) }] estWitnessCurriculum).topic_additions =
        [{ topic := "Review Session: Fundamentals", reason := "Strengthen core concepts" }]) ∧
    ((6 : ℚ) / 10 ≤ avgScore [{ score := some (7 / 10) }] ∧
      avgScore [{ score := some (7 / 10) }] ≤ 9 / 10 ∧
      adapt_curriculum [{ score := some (7 / 10) }] estWitnessCurriculum =
        { difficulty_changes := [], topic_additions := [], topic_removals := []
          pace_adjustments := [] }) := by
  have h1 : avgScore [{ score := some (19 / 20) }] = 19 / 20 := by
    norm_num [avgScore]
  have h2 : avgScore [{ score := some (3 / 10) }] = 3 / 10 := by
    norm_num [avgScore]
  have h3 : avgScore [{ score := some (7 / 10) }] = 7 / 10 := by
    norm_num [avgScore]
  refine ⟨⟨by rw [h1]; norm_num, ?_⟩, ⟨by rw [h2]; norm_num, ?_⟩,
    by rw [h3]; norm_num, by rw [h3]; norm_num, ?_⟩
  · rw [(adapt_curriculum_thresholds [{ score := some (19 / 20) }] estWitnessCurriculum).1
      (by rw [h1]; norm_num)]
  · rw [(adapt_curriculum_thresholds [{ score := some (3 / 10) }] estWitnessCurriculum).2.1
      (by rw [h2]; norm_num)]
  · exact (adapt_curriculum_thresholds [{ score := some (7 / 10) }] estWitnessCurriculum).2.2
      (by rw [h3]; norm_num) (by rw [h3]; norm_num)

-- AIAdaptiveLearning.predict_completion_date.  The formatted calendar date
-- string is modelled by EstDate: the sentinel Cannot estimate, or the day
-- now + days_remaining on the rational day axis.

/-- The estimated_date field: either the literal Cannot estimate sentinel or
the date now + days_remaining (datetime.now() + timedelta(days=...)). -/
inductive EstDate where
  | cannotEstimate : EstDate
  | onDay : ℚ → EstDate
deriving DecidableEq

structure Prediction where
  estimated_date : EstDate
  days_remaining : Option ℤ := none
  weeks_remaining : Option ℤ := none
  confidence : String
  message : String
deriving DecidableEq

/-- AIAdaptiveLearning.predict_completion_date, parameterized by the clock
value now (in days). -/
def predict_completion_date (now : ℚ) (current_progress total_topics : ℤ)
    (learning_velocity : ℚ) : Prediction :=
  let remaining_topics : ℚ := (total_topics : ℚ) - (current_progress : ℚ)
  if learning_velocity = 0 then
    { estimated_date := EstDate.cannotEstimate
      confidence := "low"
      message := "Complete more topics to get accurate prediction" }
  else
    let days_remaining := remaining_topics / learning_velocity
    { estimated_date := EstDate.onDay (now + days_remaining)
      days_remaining := some (truncQ days_remaining)
      weeks_remaining := some (truncQ (days_remaining / 7))
      confidence := if days_remaining < 100 then "high" else "medium"
      message := "At your current pace, you\x27ll complete in " ++
        toString (truncQ (days_remaining / 7)) ++ " weeks" }

/-- Counterexample to C6 as stated: at completed 0, total 3, velocity 2 the
returned days_remaining field is the truncated value 1, not the exact quotient
(3 - 0) / 2 = 3 / 2. -/
theorem predict_completion_date_truncation_cex :
    (predict_completion_date 0 0 3 2).days_remaining = some 1 ∧
    ((3 : ℚ) - 0) / 2 = 3 / 2 ∧ (1 : ℚ) ≠ 3 / 2 := by
  refine ⟨?_, by norm_num, by norm_num⟩
  show some (truncQ (((3 : ℚ) - 0) / 2)) = some 1
  norm_num [truncQ]

/-- C6 amended: with velocity 0 the function returns the Cannot estimate
sentinel with confidence low and no division; with nonzero velocity (in
particular any velocity above 0) the returned days_remaining field is the
truncation towards zero of (totalTopics - completedCount) / velocity, and the
confidence is high exactly when that untruncated quotient is below 100 and
medium otherwise; predict_completion_date(completed 5, total 5, velocity 1)
returns days_remaining 0. -/
theorem predict_completion_date_spec (now : ℚ) (cp tt : ℤ) (v : ℚ) :
    (v = 0 →
      (predict_completion_date now cp tt v).confidence = "low" ∧
      (predict_completion_date now cp tt v).estimated_date = EstDate.cannotEstimate) ∧
    (v ≠ 0 →
      (predict_completion_date now cp tt v).days_remaining =
        some (truncQ (((tt : ℚ) - (cp : ℚ)) / v)) ∧
      ((predict_completion_date now cp tt v).confidence = "high" ↔
        ((tt : ℚ) - (cp : ℚ)) / v < 100) ∧
      ((predict_completion_date now cp tt v).confidence = "medium" ↔
        ¬ ((tt : ℚ) - (cp : ℚ)) / v < 100)) ∧
    (predict_completion_date now 5 5 1).days_remaining = some 0 := by
  refine ⟨?_, ?_, ?_⟩
  · intro h
    unfold predict_completion_date
    rw [if_pos h]
    exact ⟨rfl, rfl⟩
  · intro h
    unfold predict_completion_date
    rw [if_neg h]
    refine ⟨rfl, ?_, ?_⟩
    · show (if ((tt : ℚ) - (cp : ℚ)) / v < 100 then "high" else "medium") = "high" ↔ _
      split_ifs with hc
      · exact iff_of_true rfl hc
      · exact iff_of_false (by decide) hc
    · show (if ((tt : ℚ) - (cp : ℚ)) / v < 100 then "high" else "medium") = "medium" ↔ _
      split_ifs with hc
      · exact iff_of_false (by decide) (fun hn => hn hc)
      · exact iff_of_true rfl (fun hn => hc hn)
  · unfold predict_completion_date
    rw [if_neg (by norm_num : (1 : ℚ) ≠ 0)]
    show some (truncQ (((5 : ℚ) - (5 : ℚ)) / 1)) = some 0
    norm_num [truncQ]

/-- Witness for C6 at velocity 0 and at the concrete scenario
(completed 5, total 5, velocity 1). -/
theorem predict_completion_date_witness :
    ((0 : ℚ) = 0 ∧
      (predict_completion_date 0 1 2 0).confidence = "low" ∧
      (predict_completion_date 0 1 2 0).estimated_date = EstDate.cannotEstimate) ∧
    ((1 : ℚ) ≠ 0 ∧
      (predict_completion_date 0 5 5 1).days_remaining =
        some (truncQ (((5 : ℚ) - (5 : ℚ)) / 1))) :=
  ⟨⟨rfl, (predict_completion_date_spec 0 1 2 0).1 rfl⟩,
   ⟨by norm_num, ((predict_completion_date_spec 0 5 5 1).2.1 (by norm_num)).1⟩⟩

-- AIRecommender.recommend_next_topics and its helper _is_completed.

structure Recommendation where
  topic_id : String
  topic_title : String
  module_title : String
  reason : String
  priority : String
  estimated_hours : ℚ
deriving DecidableEq

/-- AIRecommender._is_completed: some topic in the path has this exact title
and its id is among the completed ids. -/
def isCompletedTitle (topic_title : String) (completed_ids : List String)
    (learning_path : Curriculum) : Bool :=
  learning_path.modules.any (fun m =>
    m.topics.any (fun t => t.title == topic_title && completed_ids.contains t.id))

/-- The recommendation record appended by recommend_next_topics for a topic
that passes the checks. -/
def mkRecommendation (m : PathModule) (t : Topic) : Recommendation :=
  { topic_id := t.id
    topic_title := t.title
    module_title := m.title
    reason := "Prerequisites completed, ready to start"
    priority := "high"
    estimated_hours := t.estimated_hours.getD 3 }

/-- The per-topic admission test of recommend_next_topics: not completed, all
prerequisites in user_skills (exact match) or completed by title, not locked. -/
def recommendTopicFilter (user_progress user_skills : List String)
    (learning_path : Curriculum) (t : Topic) : Bool :=
  !(user_progress.contains t.id) &&
  (t.prerequisites.all
    (fun p => user_skills.contains p || isCompletedTitle p user_progress learning_path)) &&
  !(t.locked.getD false)

/-- The scan order of recommend_next_topics: modules in list order, topics in
list order, keeping the topics that pass the admission test. -/
def recommendationsScan (user_progress user_skills : List String)
    (learning_path : Curriculum) : List Recommendation :=
  (learning_path.modules.map (fun m =>
    (m.topics.filter (recommendTopicFilter user_progress user_skills learning_path)).map
      (mkRecommendation m))).flatten

/-- Lexicographic code-point comparison of character lists, modelling the
Python string comparison used by the sort key. -/
def strListLe : List Char → List Char → Bool
  | [], _ => true
  | _ :: _, [] => false
  | a :: as, b :: bs =>
    if a.toNat < b.toNat then true
    else if b.toNat < a.toNat then false
    else strListLe as bs

/-- Python string comparison a less-or-equal b on code points. -/
def strLe (a b : String) : Bool := strListLe a.data b.data

/-- Stable descending insertion by priority: models
recommendations.sort(key=priority, reverse=True), which is a stable descending
sort by the priority string. -/
def insertByPriorityDesc (x : Recommendation) : List Recommendation → List Recommendation
  | [] => [x]
  | y :: ys =>
    if strLe y.priority x.priority then x :: y :: ys
    else y :: insertByPriorityDesc x ys

/-- Stable descending sort by priority. -/
def sortByPriorityDesc : List Recommendation → List Recommendation
  | [] => []
  | x :: xs => insertByPriorityDesc x (sortByPriorityDesc xs)

/-- AIRecommender.recommend_next_topics: scan, stable sort by the constant
priority, truncate to the first five. -/
def recommend_next_topics (user_progress user_skills : List String)
    (learning_path : Curriculum) : List Recommendation :=
  (sortByPriorityDesc (recommendationsScan user_progress user_skills learning_path)).take 5

theorem contains_eq_false_iff (a : String) (l : List String) :
    (l.contains a = false) ↔ a ∉ l := by
  rw [Bool.eq_false_iff, Ne, contains_iff_mem_str]

theorem recommendTopicFilter_iff (progress skills : List String) (path : Curriculum)
    (t : Topic) :
    recommendTopicFilter progress skills path t = true ↔
      t.id ∉ progress ∧
      (∀ p ∈ t.prerequisites, p ∈ skills ∨ isCompletedTitle p progress path = true) ∧
      t.locked.getD false = false := by
  unfold recommendTopicFilter
  simp only [Bool.and_eq_true, Bool.not_eq_true', List.all_eq_true, Bool.or_eq_true,
    contains_iff_mem_str, contains_eq_false_iff]
  tauto

theorem insertByPriorityDesc_high (x : Recommendation) (l : List Recommendation)
    (hx : x.priority = "high") (hl : ∀ y ∈ l, y.priority = "high") :
    insertByPriorityDesc x l = x :: l := by
  cases l with
  | nil => rfl
  | cons y ys =>
    unfold insertByPriorityDesc
    rw [hx, hl y (List.mem_cons_self y ys), if_pos (by decide : strLe "high" "high" = true)]

theorem sortByPriorityDesc_high (l : List Recommendation)
    (hl : ∀ y ∈ l, y.priority = "high") :
    sortByPriorityDesc l = l := by
  induction l with
  | nil => rfl
  | cons x xs ih =>
    unfold sortByPriorityDesc
    rw [ih (fun y hy => hl y (List.mem_cons_of_mem x hy))]
    exact insertByPriorityDesc_high x xs (hl x (List.mem_cons_self x xs))
      (fun y hy => hl y (List.mem_cons_of_mem x hy))

theorem recommendationsScan_all_high (progress skills : List String) (path : Curriculum) :
    ∀ r ∈ recommendationsScan progress skills path, r.priority = "high" := by
  intro r hr
  simp only [recommendationsScan, List.mem_flatten, List.mem_map] at hr
  obtain ⟨_, ⟨m, _, rfl⟩, hr⟩ := hr
  simp only [List.mem_map] at hr
  obtain ⟨t, _, rfl⟩ := hr
  rfl

/-- C1 amended: a topic of the path enters the recommendation scan exactly when
it is not completed, not locked, and every prerequisite string is present in
the declared skills by exact case-sensitive membership or is the title of some
topic of the path whose id is completed; recommend_next_topics is the first
five entries of that scan (the sort by the constant priority is the identity). -/
theorem recommend_next_topics_prereq_resolution (progress skills : List String)
    (path : Curriculum) :
    (∀ r : Recommendation, r ∈ recommendationsScan progress skills path ↔
      ∃ m ∈ path.modules, ∃ t ∈ m.topics,
        r = mkRecommendation m t ∧
        t.id ∉ progress ∧
        (∀ p ∈ t.prerequisites, p ∈ skills ∨ isCompletedTitle p progress path = true) ∧
        t.locked.getD false = false) ∧
    recommend_next_topics progress skills path =
      (recommendationsScan progress skills path).take 5 := by
  constructor
  · intro r
    simp only [recommendationsScan, List.mem_flatten, List.mem_map, List.mem_filter]
    constructor
    · rintro ⟨_, ⟨m, hm, rfl⟩, hr⟩
      simp only [List.mem_map, List.mem_filter] at hr
      obtain ⟨t, ⟨ht, hφ⟩, rfl⟩ := hr
      obtain ⟨h1, h2, h3⟩ := (recommendTopicFilter_iff progress skills path t).1 hφ
      exact ⟨m, hm, t, ht, rfl, h1, h2, h3⟩
    · rintro ⟨m, hm, t, ht, rfl, h1, h2, h3⟩
      refine ⟨(m.topics.filter (recommendTopicFilter progress skills path)).map
          (mkRecommendation m), ⟨m, hm, rfl⟩, ?_⟩
      simp only [List.mem_map, List.mem_filter]
      exact ⟨t, ⟨ht, (recommendTopicFilter_iff progress skills path t).2 ⟨h1, h2, h3⟩⟩, rfl⟩
  · unfold recommend_next_topics
    rw [sortByPriorityDesc_high _ (recommendationsScan_all_high progress skills path)]

/-- Unlocked topic with the prerequisite string written in lowercase, used in
the C1 counterexample. -/
def cexTopicB : Topic := mkTopic "t2" "Variables Deep Dive" "Follow-up topic" ["python"] []

/-- One-module path for the C1 counterexample: a completed-free curriculum with
an introductory topic and a topic whose prerequisite differs from the declared
skill only by case. -/
def cexPath : Curriculum :=
  { title := "Demo Path"
    description := "Demo"
    target_role := "Backend Developer"
    difficulty := "beginner"
    modules :=
      [ { id := "m1", title := "Module One", description := "Demo module",
          order := 1, difficulty := "beginner",
          topics := [mkTopic "t1" "Python Basics" "Intro topic" [] [], cexTopicB] } ] }

/-- Counterexample to C1 as stated: with declared skill Python and prerequisite
python the prerequisite resolves case-insensitively against the skill set, the
topic is neither completed nor locked and the result has fewer than five
entries, yet the topic is not recommended, because the code matches skills
case-sensitively. -/
theorem recommend_next_topics_case_cex :
    (∀ p ∈ cexTopicB.prerequisites, strLower p ∈ ["Python"].map strLower) ∧
    "t2" ∉ ([] : List String) ∧
    cexTopicB.locked.getD false = false ∧
    (recommend_next_topics [] ["Python"] cexPath).length < 5 ∧
    ∀ r ∈ recommend_next_topics [] ["Python"] cexPath, r.topic_id ≠ "t2" := by
  decide

-- AIRecommender.suggest_study_schedule.

structure DayPlan where
  day : String
  topics : List Topic
  total_hours : ℚ
deriving DecidableEq

structure Schedule where
  weekly_plan : List Topic
  daily_breakdown : List DayPlan
  total_hours : ℚ
deriving DecidableEq

def days_of_week : List String :=
  ["Monday", "Tuesday", "Wednesday", "Thursday", "Friday", "Saturday", "Sunday"]

/-- The inner while loop of suggest_study_schedule for one day: returns the
topics placed on the day, the accumulated day hours, and the remaining topics.
A topic counts topic.get("estimated_hours", 2) hours. -/
def fillDay (hours_per_day : ℚ) : ℚ → List Topic → List Topic × ℚ × List Topic
  | day_hours, [] => ([], day_hours, [])
  | day_hours, t :: rest =>
    if day_hours < hours_per_day then
      if day_hours + t.estimated_hours.getD 2 ≤ hours_per_day then
        let r := fillDay hours_per_day (day_hours + t.estimated_hours.getD 2) rest
        (t :: r.1, r.2.1, r.2.2)
      else ([], day_hours, t :: rest)
    else ([], day_hours, t :: rest)

/-- The day loop of suggest_study_schedule: one fillDay pass per named weekday,
stopping early when no topics remain, recording a day only when it received at
least one topic. -/
def scheduleDays (hours_per_day : ℚ) : List String → List Topic → List DayPlan × ℚ
  | [], _ => ([], 0)
  | _, [] => ([], 0)
  | day :: days, t :: rest =>
    let f := fillDay hours_per_day 0 (t :: rest)
    let r := scheduleDays hours_per_day days f.2.2
    if f.1.isEmpty then r else (⟨day, f.1, f.2.1⟩ :: r.1, f.2.1 + r.2)

/-- AIRecommender.suggest_study_schedule (the learning_pace argument is
accepted but unused, as in the source; weekly_plan is created empty and
never filled). -/
def suggest_study_schedule (available_hours : ℚ) (learning_pace : String)
    (upcoming_topics : List Topic) : Schedule :=
  { weekly_plan := []
    daily_breakdown := (scheduleDays available_hours days_of_week upcoming_topics).1
    total_hours := (scheduleDays available_hours days_of_week upcoming_topics).2 }

/-- All topics placed on some day of the schedule, in schedule order. -/
def scheduledTopics (s : Schedule) : List Topic :=
  (s.daily_breakdown.map DayPlan.topics).flatten

theorem fillDay_append (h : ℚ) (ts : List Topic) :
    ∀ acc : ℚ, (fillDay h acc ts).1 ++ (fillDay h acc ts).2.2 = ts := by
  induction ts with
  | nil => intro acc; rfl
  | cons t rest ih =>
    intro acc
    unfold fillDay
    split_ifs with h1 h2
    · simpa using ih (acc + t.estimated_hours.getD 2)
    · rfl
    · rfl

theorem fillDay_hours_le (h : ℚ) (ts : List Topic) :
    ∀ acc : ℚ, acc ≤ h → (fillDay h acc ts).2.1 ≤ h := by
  induction ts with
  | nil => intro acc hacc; exact hacc
  | cons t rest ih =>
    intro acc hacc
    unfold fillDay
    split_ifs with h1 h2
    · exact ih (acc + t.estimated_hours.getD 2) h2
    · exact hacc
    · exact hacc

theorem fillDay_len_blocked (h : ℚ) (big : Topic) (post : List Topic)
    (hov : h < big.estimated_hours.getD 2) (pre : List Topic) :
    ∀ acc : ℚ, 0 ≤ acc → (∀ t ∈ pre, 0 ≤ t.estimated_hours.getD 2) →
      (fillDay h acc (pre ++ big :: post)).1.length ≤ pre.length := by
  induction pre with
  | nil =>
    intro acc hacc _
    show (fillDay h acc (big :: post)).1.length ≤ 0
    unfold fillDay
    split_ifs with h1 h2
    · exact absurd h2 (by linarith)
    · simp
    · simp
  | cons t pre' ih =>
    intro acc hacc hnn
    show (fillDay h acc (t :: (pre' ++ big :: post))).1.length ≤ pre'.length + 1
    unfold fillDay
    split_ifs with h1 h2
    · have ht : 0 ≤ t.estimated_hours.getD 2 := hnn t (List.mem_cons_self t pre')
      have := ih (acc + t.estimated_hours.getD 2) (by linarith)
        (fun x hx => hnn x (List.mem_cons_of_mem t hx))
      simpa using Nat.succ_le_succ this
    · simp
    · simp

theorem drop_append_le {α : Type} (l₁ l₂ : List α) :
    ∀ k : Nat, k ≤ l₁.length → (l₁ ++ l₂).drop k = l₁.drop k ++ l₂ := by
  induction l₁ with
  | nil =>
    intro k hk
    have hk0 : k = 0 := Nat.le_zero.mp hk
    subst hk0
    simp
  | cons a l ih =>
    intro k hk
    cases k with
    | zero => simp
    | succ k' => simpa using ih k' (Nat.le_of_succ_le_succ hk)

theorem append_eq_take_drop {α : Type} (a b l : List α) (hab : a ++ b = l) :
    a = l.take a.length ∧ b = l.drop a.length := by
  constructor
  · rw [← hab, List.take_left]
  · rw [← hab, List.drop_left]

theorem scheduleDays_cons_ne (h : ℚ) (day : String) (days : List String) (ts : List Topic)
    (hts : ts ≠ []) :
    scheduleDays h (day :: days) ts =
      (if (fillDay h 0 ts).1.isEmpty then scheduleDays h days (fillDay h 0 ts).2.2
       else (⟨day, (fillDay h 0 ts).1, (fillDay h 0 ts).2.1⟩ ::
              (scheduleDays h days (fillDay h 0 ts).2.2).1,
             (fillDay h 0 ts).2.1 + (scheduleDays h days (fillDay h 0 ts).2.2).2)) := by
  cases ts with
  | nil => exact absurd rfl hts
  | cons t rest => rfl

theorem scheduleDays_hours_le (h : ℚ) (hh : 0 ≤ h) :
    ∀ (days : List String) (ts : List Topic),
      ∀ d ∈ (scheduleDays h days ts).1, d.total_hours ≤ h := by
  intro days
  induction days with
  | nil =>
    intro ts d hd
    simp [scheduleDays] at hd
  | cons day rest ih =>
    intro ts d hd
    cases ts with
    | nil => simp [scheduleDays] at hd
    | cons t ts' =>
      rw [scheduleDays_cons_ne h day rest (t :: ts') (by simp)] at hd
      by_cases he : (fillDay h 0 (t :: ts')).1.isEmpty
      · rw [if_pos he] at hd
        exact ih _ d hd
      · rw [if_neg he] at hd
        rcases List.mem_cons.mp hd with rfl | hd
        · exact fillDay_hours_le h (t :: ts') 0 hh
        · exact ih _ d hd

theorem scheduleDays_blocked (h : ℚ) (big : Topic)
    (hov : h < big.estimated_hours.getD 2) :
    ∀ (days : List String) (pre post : List Topic),
      (∀ t ∈ pre, 0 ≤ t.estimated_hours.getD 2) →
      ∃ n, n ≤ pre.length ∧
        ((scheduleDays h days (pre ++ big :: post)).1.map DayPlan.topics).flatten =
          (pre ++ big :: post).take n := by
  intro days
  induction days with
  | nil =>
    intro pre post _
    exact ⟨0, Nat.zero_le _, by simp [scheduleDays]⟩
  | cons day rest ih =>
    intro pre post hnn
    have hts : pre ++ big :: post ≠ [] := by
      cases pre <;> simp
    rw [scheduleDays_cons_ne h day rest _ hts]
    have hk : (fillDay h 0 (pre ++ big :: post)).1.length ≤ pre.length :=
      fillDay_len_blocked h big post hov pre 0 (le_refl 0) hnn
    obtain ⟨hf1, hf2⟩ := append_eq_take_drop _ _ _ (fillDay_append h (pre ++ big :: post) 0)
    by_cases he : (fillDay h 0 (pre ++ big :: post)).1.isEmpty
    · rw [if_pos he]
      have hk0 : (fillDay h 0 (pre ++ big :: post)).1 = [] := List.isEmpty_iff.mp he
      have hrem : (fillDay h 0 (pre ++ big :: post)).2.2 = pre ++ big :: post := by
        rw [hf2, hk0]
        simp
      rw [hrem]
      exact ih pre post hnn
    · rw [if_neg he]
      have hdropk : (pre ++ big :: post).drop (fillDay h 0 (pre ++ big :: post)).1.length =
          pre.drop (fillDay h 0 (pre ++ big :: post)).1.length ++ big :: post :=
        drop_append_le pre (big :: post) _ hk
      obtain ⟨n', hn', hcat⟩ := ih (pre.drop (fillDay h 0 (pre ++ big :: post)).1.length) post
        (fun t ht => hnn t (List.drop_subset _ pre ht))
      refine ⟨(fillDay h 0 (pre ++ big :: post)).1.length + n', ?_, ?_⟩
      · have hle : n' ≤ pre.length - (fillDay h 0 (pre ++ big :: post)).1.length := by
          simpa using hn'
        omega
      · simp only [List.map_cons, List.flatten_cons]
        rw [List.take_add, ← hf1, hf2, hdropk]
        exact congrArg (fun l => (fillDay h 0 (pre ++ big :: post)).1 ++ l) hcat

/-- C10 amended: with a positive daily budget every scheduled day receives at
most that many hours, and when all topic hour counts are nonnegative, a topic
whose hours exceed the budget blocks itself and everything after it: the
scheduled topics are an initial segment of the input ending before that topic. -/
theorem suggest_study_schedule_caps_and_blocking (h : ℚ) (pace : String) (ts : List Topic)
    (hh : 0 < h) :
    (∀ d ∈ (suggest_study_schedule h pace ts).daily_breakdown, d.total_hours ≤ h) ∧
    (∀ (j : Nat) (hj : j < ts.length),
      (∀ t ∈ ts, 0 ≤ t.estimated_hours.getD 2) →
      h < (ts.get ⟨j, hj⟩).estimated_hours.getD 2 →
      ∃ n, n ≤ j ∧ scheduledTopics (suggest_study_schedule h pace ts) = ts.take n) := by
  constructor
  · intro d hd
    exact scheduleDays_hours_le h (le_of_lt hh) days_of_week ts d hd
  · intro j hj hnn hov
    have hdecomp : ts = ts.take j ++ ts.get ⟨j, hj⟩ :: ts.drop (j + 1) := by
      rw [List.get_eq_getElem, ← List.drop_eq_getElem_cons hj, List.take_append_drop]
    obtain ⟨n, hn, hcat⟩ :=
      scheduleDays_blocked h (ts.get ⟨j, hj⟩) hov days_of_week (ts.take j) (ts.drop (j + 1))
        (fun t ht => hnn t (List.take_subset j ts ht))
    refine ⟨n, ?_, ?_⟩
    · have hlen : (ts.take j).length = j := by
        rw [List.length_take]
        omega
      omega
    · show ((scheduleDays h days_of_week ts).1.map DayPlan.topics).flatten = ts.take n
      rw [show (scheduleDays h days_of_week ts).1 =
          (scheduleDays h days_of_week
            (ts.take j ++ ts.get ⟨j, hj⟩ :: ts.drop (j + 1))).1 from by rw [← hdecomp]]
      rw [hcat, ← hdecomp]

/-- Negative-hours topic used by the C10 counterexample. -/
def cexSchedTopicA : Topic :=
  { mkTopic "s1" "Filler" "Negative-hours record" [] [] with estimated_hours := some (-5) }

/-- Oversized topic used by the C10 counterexample. -/
def cexSchedTopicB : Topic :=
  { mkTopic "s2" "Oversized" "Exceeds the daily budget" [] [] with estimated_hours := some 3 }

/-- Counterexample to C10 as stated: for the input list with a negative-hours
topic followed by a topic of 3 hours against a 2-hour budget, the oversized
topic is scheduled anyway, because the accumulated day hours have gone
negative; the universal claim over every input topic list is false. -/
theorem suggest_study_schedule_blocking_cex :
    (2 : ℚ) < cexSchedTopicB.estimated_hours.getD 2 ∧
    cexSchedTopicB ∈
      scheduledTopics (suggest_study_schedule 2 "moderate" [cexSchedTopicA, cexSchedTopicB]) := by
  constructor
  · norm_num [cexSchedTopicB, mkTopic]
  · norm_num [scheduledTopics, suggest_study_schedule, scheduleDays, fillDay, days_of_week,
      cexSchedTopicA, cexSchedTopicB, mkTopic]

/-- Small topic used by the C10 witness. -/
def schedWitnessT1 : Topic :=
  { mkTopic "w1" "Small" "Fits the budget" [] [] with estimated_hours := some 1 }

/-- Oversized topic used by the C10 witness. -/
def schedWitnessT2 : Topic :=
  { mkTopic "w2" "Large" "Exceeds the budget" [] [] with estimated_hours := some 5 }

def schedWitnessTopics : List Topic := [schedWitnessT1, schedWitnessT2]

/-- Witness for the amended C10 at a concrete budget of 2 hours and a
two-topic list whose second topic is oversized: the unconditional per-day cap
and the blocking clause instantiated at index 1. -/
theorem suggest_study_schedule_witness :
    (0 : ℚ) < 2 ∧
    (∀ t ∈ schedWitnessTopics, 0 ≤ t.estimated_hours.getD 2) ∧
    1 < schedWitnessTopics.length ∧
    (2 : ℚ) < (schedWitnessTopics.get ⟨1, by decide⟩).estimated_hours.getD 2 ∧
    ((∀ d ∈ (suggest_study_schedule 2 "moderate" schedWitnessTopics).daily_breakdown,
        d.total_hours ≤ 2) ∧
      ∃ n, n ≤ 1 ∧
        scheduledTopics (suggest_study_schedule 2 "moderate" schedWitnessTopics) =
          schedWitnessTopics.take n) := by
  have hnn : ∀ t ∈ schedWitnessTopics, 0 ≤ t.estimated_hours.getD 2 := by
    intro t ht
    fin_cases ht <;> norm_num [schedWitnessT1, schedWitnessT2, mkTopic]
  have hov : (2 : ℚ) < (schedWitnessTopics.get ⟨1, by decide⟩).estimated_hours.getD 2 := by
    show (2 : ℚ) < schedWitnessT2.estimated_hours.getD 2
    norm_num [schedWitnessT2, mkTopic]
  exact ⟨by norm_num, hnn, by decide, hov,
    (suggest_study_schedule_caps_and_blocking 2 "moderate" schedWitnessTopics
      (by norm_num)).1,
    (suggest_study_schedule_caps_and_blocking 2 "moderate" schedWitnessTopics
      (by norm_num)).2 1 (by decide) hnn hov⟩
